import Mathlib

/-!
Shallow embedding of `homework.py` (a Telegram homework-status polling bot).

Python values flowing through the program are modelled by a small `Json`
type.  Python exceptions are modelled by `PyError`; fallible code returns
`Except PyError _`.  External effects (the HTTP request issued by
`requests.get`, the Telegram send issued by `bot.send_message`) are
modelled by explicit outcome oracles passed in as arguments, so every
definition is executable.
-/

/-- A Python/JSON value as it appears in the bot's data flow. -/
inductive Json where
  | null
  | int (n : Int)
  | str (s : String)
  | list (xs : List Json)
  | obj (fields : List (String × Json))

/-- The exception classes the program raises.  `typeError`, `keyError` and
`indexError` are Python builtins; `requestsConnectionError` models the
exception `requests.get` raises on a network-level failure
(`requests.exceptions.ConnectionError` / `Timeout`, which derive from
`RequestException(IOError)` and are NOT subclasses of the builtin
`ConnectionError`); the remaining four model the classes of the
project's `exceptions` module.  Modelled from the spec: the `exceptions`
module itself (classes `ErrorSendMessage`, `ErrorServerConnection`,
`ErrorStatusCode`, `KeyErrorInHomework`) is not under `src/`; per the
spec's error-kind list (SendFailure, ConnectionFailure,
ServerResponseError, UnknownStatus/MissingField) they are plain
exception classes carrying a message, modelled as tagged variants. -/
inductive PyError where
  | typeError (msg : String)
  | keyError (msg : String)
  | indexError
  | requestsConnectionError (cause : String)
  | keyErrorInHomework (msg : String)
  | errorSendMessage (msg : String)
  | errorServerConnection (msg : String)
  | errorStatusCode (msg : String)
deriving DecidableEq, Repr

/-- First-match association lookup, as a Python `dict` lookup (dict keys
are unique, so first match is the match). -/
def fieldLookup (k : String) : List (String × Json) → Option Json
  | [] => none
  | (a, b) :: rest => if a = k then some b else fieldLookup k rest

/-- Lookup in a string-to-string table (`HOMEWORK_VERDICT[status]`). -/
def lookupStr (k : String) : List (String × String) → Option String
  | [] => none
  | (a, b) :: rest => if a = k then some b else lookupStr k rest

/-- Python `d.get(k)`: `none` when `d` is not a dict or the key is absent. -/
def Json.get? : Json → String → Option Json
  | .obj fields, k => fieldLookup k fields
  | _, _ => none

/-- Python `d.get(k) is None` test folded into the lookup: a key mapped to
`null` (Python `None`) is indistinguishable from an absent key. -/
def Json.getNonNull (j : Json) (k : String) : Option Json :=
  match j.get? k with
  | some Json.null => none
  | r => r

/-- Python subscript `d[k]` on a string key: `KeyError` when the key is
absent, `TypeError` when the value is not a dict. -/
def Json.subscript (j : Json) (k : String) : Except PyError Json :=
  match j with
  | .obj fields =>
    match fieldLookup k fields with
    | some v => .ok v
    | none => .error (.keyError k)
  | _ => .error (.typeError "indices must be integers")

/-- Python subscript `xs[0]`: `IndexError` on an empty list. -/
def pyIndex0 : Json → Except PyError Json
  | .list [] => .error .indexError
  | .list (x :: _) => .ok x
  | _ => .error (.typeError "object is not subscriptable")

mutual

/-- Python `repr` of a value, as used by `str()` on containers. -/
def pyRepr : Json → String
  | .null => "None"
  | .int n => toString n
  | .str s => "\x27" ++ s ++ "\x27"
  | .list xs => "[" ++ pyReprElems xs ++ "]"
  | .obj fs => "\x7b" ++ pyReprFields fs ++ "\x7d"

/-- Comma-separated reprs of list elements. -/
def pyReprElems : List Json → String
  | [] => ""
  | [x] => pyRepr x
  | x :: rest => pyRepr x ++ ", " ++ pyReprElems rest

/-- Comma-separated reprs of dict entries. -/
def pyReprFields : List (String × Json) → String
  | [] => ""
  | [(k, v)] => "\x27" ++ k ++ "\x27: " ++ pyRepr v
  | (k, v) :: rest => "\x27" ++ k ++ "\x27: " ++ pyRepr v ++ ", " ++ pyReprFields rest

end

/-- Python `str()` / f-string rendering of a value. -/
def pyStr : Json → String
  | .str s => s
  | j => pyRepr j

/-- Python `str()` of an exception, as interpolated by
`f'Сбой в работе программы: \x7berror\x7d'`.  `str` of a `KeyError`
wraps its argument in quotes. -/
def errStr : PyError → String
  | .typeError msg => msg
  | .keyError msg => "\x27" ++ msg ++ "\x27"
  | .indexError => "list index out of range"
  | .requestsConnectionError cause => cause
  | .keyErrorInHomework msg => msg
  | .errorSendMessage msg => msg
  | .errorServerConnection msg => msg
  | .errorStatusCode msg => msg

/-- The `HOMEWORK_VERDICT` table of `homework.py`. -/
def HOMEWORK_VERDICT : List (String × String) :=
  [("approved", "Работа проверена: ревьюеру всё понравилось. Ура!"),
   ("reviewing", "Работа взята на проверку ревьюером."),
   ("rejected", "Работа проверена: у ревьюера есть замечания.")]

/-- Python `homework_status in HOMEWORK_VERDICT` (line 118) followed by
the table lookup `HOMEWORK_VERDICT[homework_status]` (line 121).
Membership testing hashes the candidate key, so an unhashable value (a
list or a dict) raises `TypeError: unhashable type` from the test
itself; hashable non-string values (`int`, `None`) simply are not keys
of the dict; a string is a key iff it is in the table. -/
def statusVerdict : Json → Except PyError (Option String)
  | .str s => .ok (lookupStr s HOMEWORK_VERDICT)
  | .null => .ok none
  | .int _ => .ok none
  | .list _ => .error (.typeError "unhashable type: \x27list\x27")
  | .obj _ => .error (.typeError "unhashable type: \x27dict\x27")

/-- `check_response` of `homework.py` (lines 78-104): type-check the
response, require a non-`None` `current_date` and a `homeworks` list, and
return the `homeworks` value (the whole list; an empty list is only
logged). -/
def check_response (response : Json) : Except PyError Json :=
  match response with
  | .obj _ =>
    match response.getNonNull "current_date" with
    | none => .error (.keyError "В ответе от API нет даты")
    | some _ =>
      match response.getNonNull "homeworks" with
      | none => .error (.keyError "В ответе от API нет домашней работы")
      | some homework =>
        match homework with
        | .list xs => .ok (.list xs)
        | _ =>
          .error (.typeError
            ("Ответ от API по ключу homework не является списком: " ++ pyStr homework))
  | _ =>
    .error (.typeError
      ("Ответ от API не является списком: response = " ++ pyStr response))

/-- `parse_status` of `homework.py` (lines 107-123): extract
`homework_name` by subscript, `status` by `.get`, translate the status
through `HOMEWORK_VERDICT`, and format the notification message. -/
def parse_status (homework : Json) : Except PyError String :=
  match homework.subscript "homework_name" with
  | .error e => .error e
  | .ok homework_name =>
    match homework_name with
    | .null => .error (.keyErrorInHomework "Ошибка ключа домашней работы")
    | _ =>
      match homework.getNonNull "status" with
      | none => .error (.keyErrorInHomework "В домашней работе нет статуса")
      | some homework_status =>
        match statusVerdict homework_status with
        | .error e => .error e
        | .ok none =>
          .error (.keyErrorInHomework
            ("Среди корректных статусов такого нет: " ++ pyStr homework_status))
        | .ok (some verdict) =>
          .ok ("Изменился статус проверки работы \"" ++ pyStr homework_name
               ++ "\". " ++ verdict)

/-- Python truthiness of an environment variable (`os.getenv` result):
absent (`None`) and the empty string are falsy. -/
def truthy : Option String → Bool
  | none => false
  | some s => s != ""

/-- `check_tokens` of `homework.py` (lines 126-132):
`all((PRACTICUM_TOKEN, TELEGRAM_TOKEN, TELEGRAM_CHAT_ID))`. -/
def check_tokens (p t c : Option String) : Bool :=
  truthy p && truthy t && truthy c

/-- Outcome of the one `requests.get` call a poll cycle issues: either a
connection-level failure with its cause, or an HTTP response with status
code, reason phrase, raw body text, and parsed JSON body. -/
inductive HttpOutcome where
  | connectionError (cause : String)
  | response (status : Nat) (reason : String) (body : String) (json : Json)

/-- What `get_api_answer` did: the `from_date` query parameter it sent and
the result it returned (or the exception it raised). -/
structure ApiCall where
  from_date : Int
  result : Except PyError Json

/-- `get_api_answer` of `homework.py` (lines 50-75):
`timestamp = current_timestamp or int(time.time())` (Python `or`: `None`
and `0` are falsy), request with `params = \x7b'from_date': timestamp\x7d`.
The `except ConnectionError` clause (line 61) names the builtin
`ConnectionError` class; the exceptions `requests.get` raises on a
network-level failure (`requests.exceptions.ConnectionError`,
`Timeout`) derive from `RequestException(IOError)` and are not
subclasses of the builtin, so the handler never matches: the raw
requests exception propagates out of `get_api_answer` and the
`ErrorServerConnection` wrap on lines 62-63 is dead code.  A non-200
status is raised as `ErrorStatusCode` with code, reason and body in the
message; on success the parsed JSON body is returned verbatim (an empty
mapping is only logged). -/
def get_api_answer (current_timestamp : Option Int) (now : Int)
    (outcome : HttpOutcome) : ApiCall :=
  let timestamp : Int :=
    match current_timestamp with
    | none => now
    | some t => if t = 0 then now else t
  { from_date := timestamp,
    result :=
      match outcome with
      | .connectionError cause =>
        .error (.requestsConnectionError cause)
      | .response status reason body json =>
        if status ≠ 200 then
          .error (.errorStatusCode
            ("Неверный ответ сервера: http code = " ++ toString status
             ++ "; reason = " ++ reason ++ "; content = " ++ body))
        else .ok json }

/-- Outcome of one `bot.send_message` transport attempt. -/
inductive SendOutcome where
  | success
  | telegramError (cause : String)
deriving DecidableEq, Repr

/-- `send_message` of `homework.py` (lines 38-47): a `TelegramError` from
the transport is wrapped in `ErrorSendMessage` and re-raised. -/
def send_message (outcome : SendOutcome) (message : String) : Except PyError Unit :=
  match outcome with
  | .success => .ok ()
  | .telegramError cause =>
    .error (.errorSendMessage ("Ошибка отправки сообщения в телеграм: " ++ cause))

/-- The loop-local variables of `main` (lines 146-148):
`current_timestamp`, `current_status`, `prev_status`.  `current_status`
is initialised to `None` and `main` contains no assignment to it. -/
structure LoopState where
  current_timestamp : Json
  current_status : Option String
  prev_status : Option String

/-- The state on entry to the `while` loop: `current_timestamp =
int(time.time())`, `current_status = None`, `prev_status =
current_status`. -/
def initState (now : Int) : LoopState :=
  { current_timestamp := .int now, current_status := none, prev_status := none }

/-- The per-cycle external world: the result of this cycle's
`get_api_answer` call, and the transport outcome of each
`bot.send_message` attempt (`sendNew` for the status-change send inside
the `try` block, `sendAlert` for the failure-report send inside the
`except` handler; a cycle attempts each at most once). -/
structure CycleInput where
  fetch : Except PyError Json
  sendNew : SendOutcome
  sendAlert : SendOutcome

/-- The `try` block of `main`'s loop body (lines 150-159):
`response = get_api_answer(...)`, `homework = check_response(response)`,
`message = parse_status(homework[0])`, then either the no-update log
branch (`current_status == prev_status`) or
`send_message`; `current_timestamp = response['date_updated']`;
`prev_status = message`.  Returns the new state or the raised exception,
paired with the arguments of the `send_message` calls made. -/
def stepTry (st : LoopState) (inp : CycleInput) :
    Except PyError LoopState × List String :=
  match inp.fetch with
  | .error e => (.error e, [])
  | .ok response =>
    match check_response response with
    | .error e => (.error e, [])
    | .ok homework =>
      match pyIndex0 homework with
      | .error e => (.error e, [])
      | .ok hw0 =>
        match parse_status hw0 with
        | .error e => (.error e, [])
        | .ok message =>
          if st.current_status = st.prev_status then
            (.ok st, [])
          else
            match send_message inp.sendNew message with
            | .error e => (.error e, [message])
            | .ok _ =>
              match response.subscript "date_updated" with
              | .error e => (.error e, [message])
              | .ok d =>
                (.ok { current_timestamp := d,
                       current_status := st.current_status,
                       prev_status := some message }, [message])

/-- What one iteration of the `while` loop did: the state it leaves
behind, the arguments of every `send_message` call it made, and the
exception (if any) that escaped the loop body. -/
structure CycleResult where
  state : LoopState
  calls : List String
  escaped : Option PyError

/-- One full iteration of `main`'s `while` loop (lines 149-164): the
`try` block, and on any exception the `except Exception` handler, which
formats `'Сбой в работе программы: ...'`, logs it and calls
`send_message` — unguarded, so a send failure there escapes the loop
body. -/
def loopBody (st : LoopState) (inp : CycleInput) : CycleResult :=
  match stepTry st inp with
  | (.ok st2, calls) => { state := st2, calls := calls, escaped := none }
  | (.error e, calls) =>
    let message := "Сбой в работе программы: " ++ errStr e
    match send_message inp.sendAlert message with
    | .ok _ => { state := st, calls := calls ++ [message], escaped := none }
    | .error e2 => { state := st, calls := calls ++ [message], escaped := some e2 }

/-- Run the loop for a finite prefix of cycles, stopping early if an
exception escapes a loop body (which crashes the process). -/
def loopRun (st : LoopState) : List CycleInput → LoopState × List String × Option PyError
  | [] => (st, [], none)
  | inp :: rest =>
    let r := loopBody st inp
    match r.escaped with
    | some e => (r.state, r.calls, some e)
    | none =>
      let rec2 := loopRun r.state rest
      (rec2.1, r.calls ++ rec2.2.1, rec2.2.2)

/-- Observable startup events of `main` (lines 135-148). -/
inductive StartEvent where
  | logCritical (message : String)
  | exitProcess (code : Nat)
  | createBot
deriving DecidableEq, Repr

/-- The critical message `main` logs when a credential is missing (the
three Python string literals are adjacent, so they concatenate with no
separator before `Программа`). -/
def startFailMessage : String :=
  "Отсутствуют обязательные переменные окружения: "
  ++ "PRACTICUM_TOKEN, TELEGRAM_TOKEN, TELEGRAM_CHAT_ID."
  ++ "Программа принудительно остановлена!"

/-- The startup phase of `main` (lines 135-149): if `check_tokens()` is
false, log critical and `sys.exit(message)` — exiting with a string
argument yields process exit status 1; otherwise construct the bot and
enter the loop.  No network request is issued before this decision
(`get_api_answer` is first called inside the loop). -/
def mainStart (p t c : Option String) : List StartEvent :=
  if check_tokens p t c then [.createBot]
  else [.logCritical startFailMessage, .exitProcess 1]

/-- The fetch-validate-translate data flow of `main`'s lines 151-153
applied to an already-fetched response:
`homework = check_response(response); parse_status(homework[0])`. -/
def translateFirst (response : Json) : Except PyError String :=
  match check_response response with
  | .error e => .error e
  | .ok homework =>
    match pyIndex0 homework with
    | .error e => .error e
    | .ok hw0 => parse_status hw0

/-- Whether the `try` block raised. -/
def isErrResult : Except PyError LoopState → Bool
  | .error _ => true
  | .ok _ => false

/-- A homework record with a recognized `approved` status. -/
def hwApproved : Json :=
  .obj [("homework_name", .str "hw1"), ("status", .str "approved")]

/-- A second homework record, with a `rejected` status. -/
def hwRejected : Json :=
  .obj [("homework_name", .str "hw2"), ("status", .str "rejected")]

/-- The spec's boundary response: `homeworks` present but empty. -/
def emptyHomeworksResponse : Json :=
  .obj [("homeworks", .list []), ("current_date", .int 1000)]

/-- The spec's malformed response: `homeworks` is not a list. -/
def notAListResponse : Json :=
  .obj [("homeworks", .str "not-a-list"), ("current_date", .int 1000)]

/-- The spec's round-trip response. -/
def roundTripResponse : Json :=
  .obj [("homeworks", .list [hwApproved]), ("current_date", .int 1000)]

/-- A fixed well-formed response carrying a `date_updated` cursor, used
for repeated identical poll cycles. -/
def steadyResponse : Json :=
  .obj [("homeworks", .list [hwApproved]), ("current_date", .int 1000),
        ("date_updated", .int 2000)]

/-- A response whose `homeworks` list has two entries. -/
def twoHomeworksResponse : Json :=
  .obj [("current_date", .int 1000), ("homeworks", .list [hwApproved, hwRejected])]

/-- A cycle in which the fetch returns `r` and every Telegram send
succeeds. -/
def allOkInput (r : Json) : CycleInput :=
  { fetch := .ok r, sendNew := .success, sendAlert := .success }

/-- C1: The spec requires that the empty-homeworks boundary response
raise no index error and trigger no notifier call.  The code violates
this: `main` indexes `homework[0]` into the empty list returned by
`check_response`, raising `IndexError`, and the `except` handler then
calls `send_message` with a failure alert — one notifier call in the
cycle. -/
theorem empty_homeworks_index_error_and_alert :
    (stepTry (initState 500) (allOkInput emptyHomeworksResponse)).1
      = .error .indexError
    ∧ (loopBody (initState 500) (allOkInput emptyHomeworksResponse)).calls
      = ["Сбой в работе программы: list index out of range"] :=
  ⟨rfl, rfl⟩

/-- C2: The spec requires exactly one notification over two identical
cycles (sent on the first).  The code sends zero: `current_status` is
initialised to `None` and never reassigned, so `current_status ==
prev_status` holds on every cycle and the send branch is unreachable,
even though the pipeline successfully produces the notification
message. -/
theorem two_cycles_send_nothing :
    (loopRun (initState 500)
      [allOkInput steadyResponse, allOkInput steadyResponse]).2.1 = []
    ∧ translateFirst steadyResponse
      = .ok "Изменился статус проверки работы \"hw1\". Работа проверена: ревьюеру всё понравилось. Ура!" :=
  ⟨rfl, rfl⟩

/-- C3 counterexample: a concrete cycle in which the fetch fails and the
report attempt in the `except` handler also fails; the wrapped send
error escapes the loop body, so the report failure is not swallowed. -/
theorem report_failure_escapes_loop_body :
    (loopBody (initState 500)
      { fetch := .error (.errorServerConnection "Ошибка подключения к серверу: boom"),
        sendNew := .success,
        sendAlert := .telegramError "chat unreachable" }).escaped
      = some (.errorSendMessage
          "Ошибка отправки сообщения в телеграм: chat unreachable") :=
  rfl

/-- C3 amended: an exception escapes the loop body exactly when the
`try` block raises and the report attempt in the `except` handler itself
fails; in that case the escaping exception is the `ErrorSendMessage`
wrapper.  Only when the report attempt succeeds (or none is needed) does
the loop body swallow the cycle's failure. -/
theorem loop_escape_iff_report_fails (st : LoopState) (inp : CycleInput) :
    (((loopBody st inp).escaped).isSome = true ↔
      (isErrResult (stepTry st inp).1 = true ∧ inp.sendAlert ≠ .success))
    ∧ (∀ e calls cause, stepTry st inp = (.error e, calls) →
        inp.sendAlert = .telegramError cause →
        (loopBody st inp).escaped
          = some (.errorSendMessage
              ("Ошибка отправки сообщения в телеграм: " ++ cause))) := by
  constructor
  · rcases hst : stepTry st inp with ⟨r, calls⟩
    cases r with
    | ok st2 => simp [loopBody, hst, isErrResult]
    | error e =>
      cases hsa : inp.sendAlert with
      | success => simp [loopBody, hst, send_message, hsa, isErrResult]
      | telegramError cause => simp [loopBody, hst, send_message, hsa, isErrResult]
  · intro e calls cause hst hsa
    simp [loopBody, hst, send_message, hsa]

/-- C3 amended, witness: concrete instantiation. -/
theorem loop_escape_iff_report_fails_witness :
    (loopBody (initState 1)
      { fetch := .error .indexError, sendNew := .success,
        sendAlert := .telegramError "x" }).escaped
      = some (.errorSendMessage "Ошибка отправки сообщения в телеграм: x") :=
  (loop_escape_iff_report_fails (initState 1)
    { fetch := .error .indexError, sendNew := .success,
      sendAlert := .telegramError "x" }).2 .indexError [] "x" rfl rfl

/-- C4 counterexample: on a mapping with a date key and a two-element
`homeworks` list, `check_response` returns the whole list, not its first
element. -/
theorem check_response_returns_list_not_first :
    check_response twoHomeworksResponse = .ok (.list [hwApproved, hwRejected])
    ∧ check_response twoHomeworksResponse ≠ .ok hwApproved :=
  ⟨rfl, fun h => Json.noConfusion (Except.ok.inj h)⟩

/-- C4 amended: for every mapping response with a non-`None` date key
and a (non-empty) list under `homeworks`, `check_response` returns the
entire `homeworks` list; the first element is extracted later by the
caller (`main` indexes `homework[0]`). -/
theorem check_response_returns_homeworks_list
    (fields : List (String × Json)) (xs : List Json) (d : Json)
    (h1 : (Json.obj fields).getNonNull "current_date" = some d)
    (h2 : (Json.obj fields).getNonNull "homeworks" = some (.list xs))
    (h3 : xs ≠ []) :
    check_response (.obj fields) = .ok (.list xs) := by
  simp [check_response, h1, h2]

/-- C4 amended, witness: concrete instantiation. -/
theorem check_response_returns_homeworks_list_witness :
    check_response (.obj [("current_date", .int 7), ("homeworks", .list [hwRejected])])
      = .ok (.list [hwRejected]) :=
  check_response_returns_homeworks_list
    [("current_date", .int 7), ("homeworks", .list [hwRejected])]
    [hwRejected] (.int 7) rfl rfl (by simp)

/-- C5: the round-trip response produces exactly the specified message
(via the `check_response`-then-`parse_status(homework[0])` data flow of
`main`), and for every record whose `homework_name` subscript yields a
string and whose `status` is a recognized verdict key, `parse_status`
returns exactly the formatted message containing the literal name and
the mapped verdict sentence. -/
theorem parse_status_roundtrip_and_format :
    translateFirst roundTripResponse
      = .ok "Изменился статус проверки работы \"hw1\". Работа проверена: ревьюеру всё понравилось. Ура!"
    ∧ ∀ (h : Json) (name status verdict : String),
        h.subscript "homework_name" = .ok (.str name) →
        h.getNonNull "status" = some (.str status) →
        lookupStr status HOMEWORK_VERDICT = some verdict →
        parse_status h
          = .ok ("Изменился статус проверки работы \"" ++ name ++ "\". " ++ verdict) := by
  refine ⟨rfl, ?_⟩
  intro h name status verdict hname hstatus hv
  simp [parse_status, hname, hstatus, statusVerdict, hv, pyStr]

/-- C5, witness: concrete instantiation of the universal part. -/
theorem parse_status_roundtrip_and_format_witness :
    parse_status hwRejected
      = .ok ("Изменился статус проверки работы \"" ++ "hw2" ++ "\". "
             ++ "Работа проверена: у ревьюера есть замечания.") :=
  parse_status_roundtrip_and_format.2 hwRejected "hw2" "rejected"
    "Работа проверена: у ревьюера есть замечания." rfl rfl rfl

/-- C6 counterexample: a record whose `status` is present but is a list
is "present but not one of the three recognized values", yet
`parse_status` fails with `TypeError: unhashable type` from the
`in HOMEWORK_VERDICT` membership test (line 118), not with the
`KeyErrorInHomework` (UnknownStatus-kind) error the claim asserts. -/
theorem unhashable_status_type_error_not_unknown_kind :
    parse_status (.obj [("homework_name", .str "hw1"), ("status", .list [.str "x"])])
      = .error (.typeError "unhashable type: \x27list\x27")
    ∧ ∀ m, parse_status (.obj [("homework_name", .str "hw1"), ("status", .list [.str "x"])])
        ≠ .error (.keyErrorInHomework m) :=
  ⟨rfl, fun m h => PyError.noConfusion (Except.error.inj h)⟩

/-- C6 amended: for every record whose `status` is present (non-`None`)
but not one of the three recognized values, `parse_status` never
returns a message; when the name extraction succeeded with a non-`None`
value, the failure is the `KeyErrorInHomework` (UnknownStatus-kind)
error with the unknown-status message whenever the status value is
hashable (so the membership test completes), while an unhashable status
value (a list or dict) fails with the `TypeError` raised by the
membership test itself. -/
theorem parse_status_unrecognized_status_fails (h s : Json)
    (h1 : h.getNonNull "status" = some s)
    (h2 : ∀ v, statusVerdict s ≠ .ok (some v)) :
    (∀ m, parse_status h ≠ .ok m)
    ∧ (∀ nm, h.subscript "homework_name" = .ok nm → nm ≠ .null →
        (statusVerdict s = .ok none →
          parse_status h
            = .error (.keyErrorInHomework
                ("Среди корректных статусов такого нет: " ++ pyStr s)))
        ∧ (∀ e, statusVerdict s = .error e → parse_status h = .error e)) := by
  constructor
  · intro m hok
    rcases hsub : h.subscript "homework_name" with e | nm
    · simp [parse_status, hsub] at hok
    · rcases hsv : statusVerdict s with e | o
      · cases nm <;> simp [parse_status, hsub, h1, hsv] at hok
      · rcases o with _ | v
        · cases nm <;> simp [parse_status, hsub, h1, hsv] at hok
        · exact h2 v hsv
  · intro nm hsub hnull
    constructor
    · intro hnone
      cases nm with
      | null => exact absurd rfl hnull
      | int n => simp [parse_status, hsub, h1, hnone]
      | str s2 => simp [parse_status, hsub, h1, hnone]
      | list xs => simp [parse_status, hsub, h1, hnone]
      | obj fs => simp [parse_status, hsub, h1, hnone]
    · intro e he
      cases nm with
      | null => exact absurd rfl hnull
      | int n => simp [parse_status, hsub, h1, he]
      | str s2 => simp [parse_status, hsub, h1, he]
      | list xs => simp [parse_status, hsub, h1, he]
      | obj fs => simp [parse_status, hsub, h1, he]

/-- C6 amended, witness: a record with an unrecognized status string. -/
theorem parse_status_unrecognized_status_fails_witness :
    parse_status (.obj [("homework_name", .str "hw1"), ("status", .str "wrong")])
      = .error (.keyErrorInHomework
          ("Среди корректных статусов такого нет: " ++ pyStr (.str "wrong"))) :=
  ((parse_status_unrecognized_status_fails
      (.obj [("homework_name", .str "hw1"), ("status", .str "wrong")])
      (.str "wrong") rfl
      (fun v hv => Option.noConfusion (Except.ok.inj hv))).2
    (.str "hw1") rfl (fun hh => Json.noConfusion hh)).1 rfl

/-- C7: `check_tokens` is true exactly when all three credentials are
present and non-empty; when it is false, `main` logs the critical
message and exits with status 1 (non-zero), creating no bot and issuing
no network call (its startup trace is exactly the log followed by the
exit). -/
theorem check_tokens_iff_and_exit (p t c : Option String) :
    (check_tokens p t c = true ↔
      ((∃ a, p = some a ∧ a ≠ "") ∧ (∃ b, t = some b ∧ b ≠ "")
        ∧ (∃ d, c = some d ∧ d ≠ "")))
    ∧ (check_tokens p t c = false →
        mainStart p t c = [.logCritical startFailMessage, .exitProcess 1]
        ∧ StartEvent.createBot ∉ mainStart p t c) := by
  constructor
  · cases p <;> cases t <;> cases c <;>
      simp [check_tokens, truthy, bne_iff_ne, and_assoc]
  · intro hfail
    simp [mainStart, hfail]

/-- C7, witness: concrete instantiation with a missing bot token. -/
theorem check_tokens_iff_and_exit_witness :
    mainStart (some "p") none (some "c")
      = [.logCritical startFailMessage, .exitProcess 1]
    ∧ StartEvent.createBot ∉ mainStart (some "p") none (some "c") :=
  (check_tokens_iff_and_exit (some "p") none (some "c")).2 rfl

/-- C8: the `homeworks`-not-a-list response fails validation with a
`TypeError` (TypeMismatch-kind), and a poll cycle on it is survived: the
loop body catches the error, calls the notifier once with the failure
alert, lets nothing escape, and leaves the loop state unchanged for the
next iteration. -/
theorem not_a_list_type_error_loop_survives :
    check_response notAListResponse
      = .error (.typeError
          "Ответ от API по ключу homework не является списком: not-a-list")
    ∧ (loopBody (initState 500) (allOkInput notAListResponse)).escaped = none
    ∧ (loopBody (initState 500) (allOkInput notAListResponse)).calls
      = ["Сбой в работе программы: Ответ от API по ключу homework не является списком: not-a-list"]
    ∧ (loopBody (initState 500) (allOkInput notAListResponse)).state
      = initState 500 :=
  ⟨rfl, rfl, rfl, rfl⟩

/-- C9 counterexample: a concrete network-level failure is not wrapped
in the typed `ErrorServerConnection` connection error: `except
ConnectionError` names the builtin class, `requests.exceptions
.ConnectionError`/`Timeout` are not its subclasses, so the raw requests
exception escapes `get_api_answer` unwrapped. -/
theorem network_failure_propagates_unwrapped :
    (get_api_answer (some 10) 99 (.connectionError "Connection refused")).result
      = .error (.requestsConnectionError "Connection refused")
    ∧ ∀ m, (get_api_answer (some 10) 99 (.connectionError "Connection refused")).result
        ≠ .error (.errorServerConnection m) :=
  ⟨rfl, fun m h => PyError.noConfusion (Except.error.inj h)⟩

/-- C9 amended: on every network-level failure of the fetch the raw
requests exception (carrying the underlying cause) propagates out of
`get_api_answer` unwrapped — the `ErrorServerConnection` wrap behind
`except ConnectionError` is dead code, because that clause names the
builtin class of which the requests exceptions are not subclasses; and
for every non-success HTTP status it fails with `ErrorStatusCode` (the
spec's ServerResponseError kind) carrying the status code, reason
phrase and raw body in its message. -/
theorem get_api_answer_raw_network_error_and_status_error
    (ct : Option Int) (now : Int) :
    (∀ cause, (get_api_answer ct now (.connectionError cause)).result
      = .error (.requestsConnectionError cause))
    ∧ (∀ status reason body j, status ≠ 200 →
        (get_api_answer ct now (.response status reason body j)).result
          = .error (.errorStatusCode
              ("Неверный ответ сервера: http code = " ++ toString status
               ++ "; reason = " ++ reason ++ "; content = " ++ body))) := by
  constructor
  · intro cause
    rfl
  · intro status reason body j hne
    simp [get_api_answer, hne]

/-- C9 amended, witness: concrete instantiation (a 404 response). -/
theorem get_api_answer_raw_network_error_and_status_error_witness :
    (get_api_answer (some 10) 99 (.response 404 "Not Found" "oops" .null)).result
      = .error (.errorStatusCode
          ("Неверный ответ сервера: http code = " ++ toString 404
           ++ "; reason = " ++ "Not Found" ++ "; content = " ++ "oops")) :=
  (get_api_answer_raw_network_error_and_status_error (some 10) 99).2
    404 "Not Found" "oops" .null (by decide)

/-- C10: the `from_date` query parameter is the current wall-clock time
when the given cursor is falsy (`None` or `0`), and exactly the given
cursor for every non-zero timestamp. -/
theorem from_date_falsy_substitution (now : Int) (o : HttpOutcome) :
    (get_api_answer none now o).from_date = now
    ∧ (get_api_answer (some 0) now o).from_date = now
    ∧ (∀ t : Int, t ≠ 0 → (get_api_answer (some t) now o).from_date = t) := by
  refine ⟨rfl, rfl, ?_⟩
  intro t ht
  simp [get_api_answer, ht]

/-- C10, witness: concrete instantiation. -/
theorem from_date_falsy_substitution_witness :
    (get_api_answer (some 42) 7 (.connectionError "x")).from_date = 42 :=
  (from_date_falsy_substitution 7 (.connectionError "x")).2.2 42 (by decide)
